import Mathlib

/-!
Verification of the application-lifecycle orchestrator of the TEN framework
designer frontend, embedded shallowly from
`core/src/ten_manager/designer_frontend/src/components/widget/apps-widget/apps-manager.tsx`.

The React component `AppsManagerWidget` is embedded as pure functions:
* the backstage-widget list of the widget store is the background-task
  registry (a list of `BackstageWidget`);
* each asynchronous handler is embedded both as a state transformer (where it
  mutates the registry) and as the ordered list of observable `Event`s it
  performs, parameterised by the outcome of its awaited external call;
* React state setters (`setIsUnloading`, `setNodesAndEdges`, ...) appear as
  events, and the final busy flag is recovered by folding the event list.
-/

namespace AppsManager

/-- Modelled from the spec: `ELocalAppStatus` (`@/types/apps`) is not among
the sources; the spec gives the two derived statuses `LOADED` and `RUNNING`. -/
inductive ELocalAppStatus where
  | LOADED
  | RUNNING
  deriving DecidableEq

/-- Modelled from the spec: `ELogViewerScriptType` (`@/types/widgets`) is not
among the sources; the apps widget uses the `INSTALL_ALL` script type, and
the type also covers run scripts. -/
inductive ELogViewerScriptType where
  | INSTALL_ALL
  | RUN_SCRIPT
  deriving DecidableEq

/-- The `metadata.script` payload of a log-viewer widget
(apps-manager.tsx lines 240-243): a script type plus the owning `base_dir`. -/
structure ScriptMeta where
  scriptType : ELogViewerScriptType
  base_dir : String
  deriving DecidableEq

/-- A backstage widget as tracked by the widget store: the entry of the
background-task registry. `script` is the optional `metadata.script`;
widgets of other categories carry none. -/
structure BackstageWidget where
  widget_id : String
  script : Option ScriptMeta
  deriving DecidableEq

/-- The optional chain
`((widget as ILogViewerWidget)?.metadata?.script as any)?.base_dir`
(apps-manager.tsx lines 98-99, 114-115, 461-462). -/
def scriptBaseDir (w : BackstageWidget) : Option String :=
  w.script.map (fun s => s.base_dir)

/-- The correlation test used by the widget: the backstage widget's script
`base_dir` equals the application's `base_dir`. -/
def ownedBy (w : BackstageWidget) (baseDir : String) : Bool :=
  decide (scriptBaseDir w = some baseDir)

/-- One entry of `loadedApps.app_info` from `useFetchApps`: the application,
identified by its `base_dir` key. -/
structure AppInfo where
  base_dir : String
  deriving DecidableEq

/-- The status of one application as computed by the `React.useEffect` at
apps-manager.tsx lines 91-107: `RUNNING` exactly when
`backstageWidgets.find(...)` finds a widget whose `metadata.script.base_dir`
equals the app's `base_dir`, `LOADED` otherwise. -/
def appStatusOf (backstageWidgets : List BackstageWidget) (baseDir : String) :
    ELocalAppStatus :=
  match backstageWidgets.find? (fun w => ownedBy w baseDir) with
  | some _ => ELocalAppStatus.RUNNING
  | none => ELocalAppStatus.LOADED

/-- The full `appStatuses` record rebuilt by that effect: one derived status
per fetched application, recomputed from the current backstage list. -/
def computeAppStatuses (apps : List AppInfo)
    (backstageWidgets : List BackstageWidget) :
    List (String × ELocalAppStatus) :=
  apps.map (fun a => (a.base_dir, appStatusOf backstageWidgets a.base_dir))

/-- The `backstageIds` computation of `handleStopApps`
(apps-manager.tsx lines 110-117): ids of the backstage widgets owned by
`baseDir`. This is the registry's `listByOwner`. -/
def listByOwner (backstageWidgets : List BackstageWidget) (baseDir : String) :
    List String :=
  (backstageWidgets.filter (fun w => ownedBy w baseDir)).map
    (fun w => w.widget_id)

/-- Modelled from the spec: `removeBackstageWidget` of the widget store
(`@/store`) is not among the sources. Per the spec, `unregister(taskId)`
removes the entry and is a no-op (not an error) when the id is absent; the
registry maps ids to metadata, so removal drops every entry carrying the id. -/
def removeBackstageWidget (widgetId : String)
    (backstageWidgets : List BackstageWidget) : List BackstageWidget :=
  backstageWidgets.filter (fun w => decide (w.widget_id ≠ widgetId))

/-- `handleStopApps` (apps-manager.tsx lines 109-121): collect the ids of the
backstage widgets owned by `baseDir` from the current store, then remove each
collected id from the store in order. -/
def handleStopApps (baseDir : String)
    (backstageWidgets : List BackstageWidget) : List BackstageWidget :=
  (listByOwner backstageWidgets baseDir).foldl
    (fun acc i => removeBackstageWidget i acc) backstageWidgets

theorem foldl_remove_eq_filter (ids : List String)
    (st : List BackstageWidget) :
    ids.foldl (fun acc i => removeBackstageWidget i acc) st
      = st.filter (fun w => decide (w.widget_id ∉ ids)) := by
  induction ids generalizing st with
  | nil => simp
  | cons i ids ih =>
    rw [List.foldl_cons, ih, removeBackstageWidget, List.filter_filter]
    apply List.filter_congr
    intro w _
    by_cases h1 : w.widget_id = i <;> by_cases h2 : w.widget_id ∈ ids <;>
      simp [h1, h2]

theorem handleStopApps_eq_filter (baseDir : String)
    (st : List BackstageWidget) :
    handleStopApps baseDir st
      = st.filter (fun w => decide (w.widget_id ∉ listByOwner st baseDir)) :=
  foldl_remove_eq_filter _ _

theorem mem_listByOwner_of_owned {st : List BackstageWidget} {baseDir : String}
    {w : BackstageWidget} (hw : w ∈ st) (ho : ownedBy w baseDir = true) :
    w.widget_id ∈ listByOwner st baseDir := by
  exact List.mem_map.mpr ⟨w, List.mem_filter.mpr ⟨hw, ho⟩, rfl⟩

/-- The slice of designer state the apps widget can touch: the fetched app
list, the backstage registry, the flow store (`nodes`, `edges`) and the two
busy flags. -/
structure DesignerState where
  apps : List AppInfo
  backstageWidgets : List BackstageWidget
  nodes : List String
  edges : List String
  isUnloading : Bool
  isReloading : Bool
  deriving DecidableEq

/-- `handleStopApps` lifted to the whole designer state: it only rewrites the
backstage registry (apps-manager.tsx lines 109-121 touch nothing else). -/
def handleStopAppsState (baseDir : String) (s : DesignerState) : DesignerState :=
  { s with backstageWidgets := handleStopApps baseDir s.backstageWidgets }

/-- C4: for every application key, `handleStopApps` unregisters every
background task owned by that key, so `listByOwner` is empty afterwards; it
is idempotent and a no-op (not an error) when no owned task exists. -/
theorem handleStopApps_stops_all (baseDir : String)
    (st : List BackstageWidget) :
    listByOwner (handleStopApps baseDir st) baseDir = []
    ∧ handleStopApps baseDir (handleStopApps baseDir st)
        = handleStopApps baseDir st
    ∧ (listByOwner st baseDir = [] → handleStopApps baseDir st = st) := by
  have hnil : ∀ st' : List BackstageWidget, listByOwner st' baseDir = [] →
      handleStopApps baseDir st' = st' := by
    intro st' h
    rw [handleStopApps, h]
    rfl
  have hempty : listByOwner (handleStopApps baseDir st) baseDir = [] := by
    rw [handleStopApps_eq_filter, listByOwner, List.filter_filter]
    apply List.map_eq_nil_iff.mpr
    apply List.filter_eq_nil_iff.mpr
    intro w hw
    simp only [Bool.and_eq_true, decide_eq_true_eq]
    intro hcon
    exact hcon.2 (mem_listByOwner_of_owned hw hcon.1)
  exact ⟨hempty, hnil _ hempty, hnil st⟩

/-- Witness for C4 on the spec's scenario: two tasks (one INSTALL, one RUN)
owned by `/a` are both removed, and stopping on a key with no tasks is the
identity. -/
theorem handleStopApps_stops_all_witness :
    listByOwner
        (handleStopApps "/a"
          [⟨"app-install-1000", some ⟨ELogViewerScriptType.INSTALL_ALL, "/a"⟩⟩,
           ⟨"app-run-7", some ⟨ELogViewerScriptType.RUN_SCRIPT, "/a"⟩⟩]) "/a"
      = []
    ∧ handleStopApps "/b"
        [⟨"app-install-1000", some ⟨ELogViewerScriptType.INSTALL_ALL, "/a"⟩⟩]
      = [⟨"app-install-1000", some ⟨ELogViewerScriptType.INSTALL_ALL, "/a"⟩⟩] :=
  ⟨(handleStopApps_stops_all "/a" _).1,
   (handleStopApps_stops_all "/b" _).2.2 (by decide)⟩

theorem widget_id_mem_of_mem_listByOwner {st : List BackstageWidget}
    {baseDir : String} {w : BackstageWidget} (hw : w ∈ st)
    (hnodup : (st.map (fun v => v.widget_id)).Nodup)
    (h : w.widget_id ∈ listByOwner st baseDir) : ownedBy w baseDir = true := by
  rcases List.mem_map.mp h with ⟨w', hw', hid⟩
  rcases List.mem_filter.mp hw' with ⟨hw'mem, hw'own⟩
  have : w' = w := List.inj_on_of_nodup_map hnodup hw'mem hw hid
  rwa [← this]

/-- C10 (frame): when backstage widget ids are distinct (the registry maps
ids to metadata), `handleStopApps key` removes exactly the widgets owned by
`key` — every widget with a different (or absent) script `base_dir` is kept —
and leaves the app list, the flow store and both busy flags untouched. -/
theorem handleStopApps_frame (baseDir : String) (s : DesignerState)
    (hnodup : (s.backstageWidgets.map (fun v => v.widget_id)).Nodup) :
    (handleStopAppsState baseDir s).backstageWidgets
        = s.backstageWidgets.filter (fun w => !(ownedBy w baseDir))
    ∧ (handleStopAppsState baseDir s).apps = s.apps
    ∧ (handleStopAppsState baseDir s).nodes = s.nodes
    ∧ (handleStopAppsState baseDir s).edges = s.edges
    ∧ (handleStopAppsState baseDir s).isUnloading = s.isUnloading
    ∧ (handleStopAppsState baseDir s).isReloading = s.isReloading := by
  refine ⟨?_, rfl, rfl, rfl, rfl, rfl⟩
  show handleStopApps baseDir s.backstageWidgets
      = s.backstageWidgets.filter (fun w => !(ownedBy w baseDir))
  rw [handleStopApps_eq_filter]
  apply List.filter_congr
  intro w hw
  by_cases ho : ownedBy w baseDir = true
  · rw [ho, Bool.not_true]
    exact decide_eq_false
      (not_not_intro (mem_listByOwner_of_owned hw ho))
  · rw [Bool.eq_false_iff.mpr ho, Bool.not_false]
    exact decide_eq_true
      fun hmem => ho (widget_id_mem_of_mem_listByOwner hw hnodup hmem)

/-- Witness for C10: a registry with an `/a`-owned task, a `/b`-owned task
and a script-less widget; stopping `/a` keeps the latter two and the rest of
the state. -/
theorem handleStopApps_frame_witness :
    (handleStopAppsState "/a"
        ⟨[⟨"/a"⟩, ⟨"/b"⟩],
         [⟨"app-install-1000", some ⟨ELogViewerScriptType.INSTALL_ALL, "/a"⟩⟩,
          ⟨"app-install-2000", some ⟨ELogViewerScriptType.INSTALL_ALL, "/b"⟩⟩,
          ⟨"app-folder", none⟩],
         ["n1"], ["e1"], false, true⟩).backstageWidgets
      = List.filter (fun w => !(ownedBy w "/a"))
          [⟨"app-install-1000", some ⟨ELogViewerScriptType.INSTALL_ALL, "/a"⟩⟩,
           ⟨"app-install-2000", some ⟨ELogViewerScriptType.INSTALL_ALL, "/b"⟩⟩,
           ⟨"app-folder", none⟩]
    ∧ (handleStopAppsState "/a"
        ⟨[⟨"/a"⟩, ⟨"/b"⟩],
         [⟨"app-install-1000", some ⟨ELogViewerScriptType.INSTALL_ALL, "/a"⟩⟩,
          ⟨"app-install-2000", some ⟨ELogViewerScriptType.INSTALL_ALL, "/b"⟩⟩,
          ⟨"app-folder", none⟩],
         ["n1"], ["e1"], false, true⟩).apps = [⟨"/a"⟩, ⟨"/b"⟩] := by
  have h := handleStopApps_frame "/a"
    ⟨[⟨"/a"⟩, ⟨"/b"⟩],
     [⟨"app-install-1000", some ⟨ELogViewerScriptType.INSTALL_ALL, "/a"⟩⟩,
      ⟨"app-install-2000", some ⟨ELogViewerScriptType.INSTALL_ALL, "/b"⟩⟩,
      ⟨"app-folder", none⟩],
     ["n1"], ["e1"], false, true⟩ (by decide)
  exact ⟨h.1, h.2.1⟩

/-- C1: the derived status of every fetched application is a pure function of
the current backstage registry: `RUNNING` iff some registered task is owned
by the app's key (`listByOwner` non-empty), `LOADED` otherwise; the status
record produced by the effect holds exactly this recomputed value. -/
theorem listByOwner_eq_nil_iff (backstageWidgets : List BackstageWidget)
    (baseDir : String) :
    listByOwner backstageWidgets baseDir = []
      ↔ backstageWidgets.find? (fun w => ownedBy w baseDir) = none := by
  rw [listByOwner, List.map_eq_nil_iff, List.filter_eq_nil_iff,
    List.find?_eq_none]

/-- C1: the derived status of every fetched application is a pure function of
the current backstage registry: `RUNNING` iff some registered task is owned
by the app's key (`listByOwner` non-empty), `LOADED` otherwise; the status
record produced by the effect holds exactly this recomputed value. -/
theorem status_derived (apps : List AppInfo)
    (backstageWidgets : List BackstageWidget) (a : AppInfo) (h : a ∈ apps) :
    (a.base_dir, appStatusOf backstageWidgets a.base_dir)
        ∈ computeAppStatuses apps backstageWidgets
    ∧ (appStatusOf backstageWidgets a.base_dir = ELocalAppStatus.RUNNING
        ↔ listByOwner backstageWidgets a.base_dir ≠ [])
    ∧ (appStatusOf backstageWidgets a.base_dir = ELocalAppStatus.LOADED
        ↔ listByOwner backstageWidgets a.base_dir = []) := by
  have hnil := listByOwner_eq_nil_iff backstageWidgets a.base_dir
  refine ⟨List.mem_map.mpr ⟨a, h, rfl⟩, ?_, ?_⟩
  · cases hf : backstageWidgets.find? (fun w => ownedBy w a.base_dir) with
    | some w =>
      simp only [appStatusOf, hf, true_iff]
      intro hcon
      exact Option.noConfusion (hf ▸ hnil.mp hcon)
    | none =>
      simp only [appStatusOf, hf]
      constructor
      · intro hcon
        exact ELocalAppStatus.noConfusion hcon
      · intro hne
        exact absurd (hnil.mpr hf) hne
  · cases hf : backstageWidgets.find? (fun w => ownedBy w a.base_dir) with
    | some w =>
      simp only [appStatusOf, hf]
      constructor
      · intro hcon
        exact ELocalAppStatus.noConfusion hcon
      · intro hcon
        exact Option.noConfusion (hf ▸ hnil.mp hcon)
    | none =>
      simp only [appStatusOf, hf, true_iff]
      exact hnil.mpr hf

/-- Witness for C1: with one fetched app `/a` and one INSTALL task owned by
`/a`, the derived status is `RUNNING` and the status record carries it. -/
theorem status_derived_witness :
    ("/a",
        appStatusOf
          [⟨"app-install-1000", some ⟨ELogViewerScriptType.INSTALL_ALL, "/a"⟩⟩]
          "/a")
        ∈ computeAppStatuses [⟨"/a"⟩]
            [⟨"app-install-1000", some ⟨ELogViewerScriptType.INSTALL_ALL, "/a"⟩⟩]
    ∧ (appStatusOf
          [⟨"app-install-1000", some ⟨ELogViewerScriptType.INSTALL_ALL, "/a"⟩⟩]
          "/a" = ELocalAppStatus.RUNNING
        ↔ listByOwner
            [⟨"app-install-1000", some ⟨ELogViewerScriptType.INSTALL_ALL, "/a"⟩⟩]
            "/a" ≠ []) :=
  have h := status_derived [⟨"/a"⟩]
    [⟨"app-install-1000", some ⟨ELogViewerScriptType.INSTALL_ALL, "/a"⟩⟩]
    ⟨"/a"⟩ (by decide)
  ⟨h.1, h.2.1⟩

/-- Observable actions performed by the widget's asynchronous handlers, in
program order: React state setters, external calls, toasts and dialog /
widget-store operations. -/
inductive Event where
  | setIsUnloading (b : Bool)
  | setIsReloading (b : Bool)
  | postUnloadApps (baseDir : String)
  | postReloadApps (baseDir : Option String)
  | toastSuccess (key : String)
  | toastError (key : String)
  | mutateApps
  | reloadGraphs
  | setNodesAndEdges (nodes edges : List String)
  | appendDialog (id : String)
  | removeDialog (id : String)
  | removeBackstage (widgetId : String)
  deriving DecidableEq

/-- Whether an awaited external call resolves or throws. -/
inductive Outcome where
  | success
  | failure
  deriving DecidableEq

/-- The user's response to the reload confirmation dialog. -/
inductive UserChoice where
  | confirm
  | cancel
  deriving DecidableEq

/-- `handleUnloadApp` (apps-manager.tsx lines 143-161): set the unload busy
flag, await `postUnloadApps`, toast by outcome, then in the `finally` block
refresh the app registry (`mutate`), resync the graphs and clear the flag. -/
def handleUnloadAppTrace (baseDir : String) (o : Outcome) : List Event :=
  [Event.setIsUnloading true, Event.postUnloadApps baseDir]
  ++ (match o with
      | Outcome.success => [Event.toastSuccess "header.menuApp.unloadAppSuccess"]
      | Outcome.failure => [Event.toastError "header.menuApp.unloadAppFailed"])
  ++ [Event.mutateApps, Event.reloadGraphs, Event.setIsUnloading false]

/-- `reloadApps` (apps-manager.tsx lines 192-224): set the reload busy flag,
await `postReloadApps`, toast with single-app vs all-apps wording, then in
the `finally` block refresh the app registry, resync the graphs, clear the
flow view and clear the flag. -/
def reloadAppsTrace (baseDir : Option String) (o : Outcome) : List Event :=
  [Event.setIsReloading true, Event.postReloadApps baseDir]
  ++ (match o, baseDir with
      | Outcome.success, some _ =>
          [Event.toastSuccess "header.menuApp.reloadAppSuccess"]
      | Outcome.success, none =>
          [Event.toastSuccess "header.menuApp.reloadAllAppsSuccess"]
      | Outcome.failure, some _ =>
          [Event.toastError "header.menuApp.reloadAppFailed"]
      | Outcome.failure, none =>
          [Event.toastError "header.menuApp.reloadAllAppsFailed"])
  ++ [Event.mutateApps, Event.reloadGraphs, Event.setNodesAndEdges [] [],
      Event.setIsReloading false]

/-- `handleReloadApp` (apps-manager.tsx lines 163-190): append the
confirmation dialog; `onCancel` only removes it; `onConfirm` runs
`reloadApps`, resyncs the graphs once more and removes the dialog. -/
def handleReloadAppTrace (baseDir : Option String) (c : UserChoice)
    (o : Outcome) : List Event :=
  Event.appendDialog "reload-app"
    :: (match c with
        | UserChoice.cancel => [Event.removeDialog "reload-app"]
        | UserChoice.confirm =>
            reloadAppsTrace baseDir o
              ++ [Event.reloadGraphs, Event.removeDialog "reload-app"])

/-- `actions.onClose` of the install log viewer (apps-manager.tsx lines
257-260): remove the backstage widget, then run `reloadApps(baseDir)`. -/
def installOnCloseTrace (widgetId baseDir : String) (o : Outcome) :
    List Event :=
  Event.removeBackstage widgetId :: reloadAppsTrace (some baseDir) o

def isMutateApps : Event → Bool
  | Event.mutateApps => true
  | _ => false

def isReloadGraphs : Event → Bool
  | Event.reloadGraphs => true
  | _ => false

def isPostReload : Event → Bool
  | Event.postReloadApps _ => true
  | _ => false

def isAppendDialog : Event → Bool
  | Event.appendDialog _ => true
  | _ => false

/-- The value of the `isUnloading` flag after running a trace from `b`. -/
def runUnloadBusy (b : Bool) (tr : List Event) : Bool :=
  tr.foldl
    (fun acc e => match e with | Event.setIsUnloading b' => b' | _ => acc) b

/-- The value of the `isReloading` flag after running a trace from `b`. -/
def runReloadBusy (b : Bool) (tr : List Event) : Bool :=
  tr.foldl
    (fun acc e => match e with | Event.setIsReloading b' => b' | _ => acc) b

/-- C2: for every `unloadApp` invocation and every reload operation, whatever
the outcome of the external call, the operation's busy flag ends cleared and
both the app-registry refresh (`mutate`) and the graph resync
(`reloadGraphs`) happen exactly once, strictly after the external call. -/
theorem unload_reload_release_and_resync (ukey : String)
    (rkey : Option String) (o o' : Outcome) (b b' : Bool) :
    ((handleUnloadAppTrace ukey o).countP isMutateApps = 1
      ∧ (handleUnloadAppTrace ukey o).countP isReloadGraphs = 1
      ∧ runUnloadBusy b (handleUnloadAppTrace ukey o) = false
      ∧ ∃ pre post, handleUnloadAppTrace ukey o
            = pre ++ Event.postUnloadApps ukey :: post
          ∧ pre.countP isMutateApps = 0 ∧ pre.countP isReloadGraphs = 0)
    ∧ ((reloadAppsTrace rkey o').countP isMutateApps = 1
      ∧ (reloadAppsTrace rkey o').countP isReloadGraphs = 1
      ∧ runReloadBusy b' (reloadAppsTrace rkey o') = false
      ∧ ∃ pre post, reloadAppsTrace rkey o'
            = pre ++ Event.postReloadApps rkey :: post
          ∧ pre.countP isMutateApps = 0 ∧ pre.countP isReloadGraphs = 0) := by
  constructor
  · cases o <;>
      exact ⟨rfl, rfl, rfl, [Event.setIsUnloading true], _, rfl, rfl, rfl⟩
  · cases o' <;> cases rkey <;>
      exact ⟨rfl, rfl, rfl, [Event.setIsReloading true], _, rfl, rfl, rfl⟩

def isClearReloadBusy : Event → Bool
  | Event.setIsReloading false => true
  | _ => false

/-- C6: on completion of the reload operation, success or failure alike, the
flow store's nodes and edges are both set to the empty list, and this happens
before the reload busy flag is released (which nothing earlier releases). -/
theorem reload_clears_graph_before_release (rkey : Option String)
    (o : Outcome) :
    ∃ pre, reloadAppsTrace rkey o
        = pre ++ [Event.setNodesAndEdges [] [], Event.setIsReloading false]
      ∧ pre.countP isClearReloadBusy = 0 := by
  cases o <;> cases rkey
  case success.none =>
    exact ⟨[Event.setIsReloading true, Event.postReloadApps none,
      Event.toastSuccess "header.menuApp.reloadAllAppsSuccess",
      Event.mutateApps, Event.reloadGraphs], rfl, rfl⟩
  case success.some k =>
    exact ⟨[Event.setIsReloading true, Event.postReloadApps (some k),
      Event.toastSuccess "header.menuApp.reloadAppSuccess",
      Event.mutateApps, Event.reloadGraphs], rfl, rfl⟩
  case failure.none =>
    exact ⟨[Event.setIsReloading true, Event.postReloadApps none,
      Event.toastError "header.menuApp.reloadAllAppsFailed",
      Event.mutateApps, Event.reloadGraphs], rfl, rfl⟩
  case failure.some k =>
    exact ⟨[Event.setIsReloading true, Event.postReloadApps (some k),
      Event.toastError "header.menuApp.reloadAppFailed",
      Event.mutateApps, Event.reloadGraphs], rfl, rfl⟩

/-- C9: on the confirmed reload path, `reloadGraphs` runs exactly twice (once
in the operation's `finally` block, once in the confirmation handler) while
the app-registry refresh (`mutate`) runs exactly once. -/
theorem confirmed_reload_double_graph_resync (rkey : Option String)
    (o : Outcome) :
    (handleReloadAppTrace rkey UserChoice.confirm o).countP isReloadGraphs = 2
    ∧ (handleReloadAppTrace rkey UserChoice.confirm o).countP isMutateApps
        = 1 := by
  cases o <;> cases rkey <;> exact ⟨rfl, rfl⟩

/-- Scans a trace left to right; `sawDialog` records whether a confirmation
dialog has been presented; the scan is `true` iff every external reload call
is preceded by a dialog. -/
def reloadPrecededByDialog : List Event → Bool → Bool
  | [], _ => true
  | Event.postReloadApps _ :: rest, sawDialog =>
      sawDialog && reloadPrecededByDialog rest sawDialog
  | Event.appendDialog _ :: rest, _ => reloadPrecededByDialog rest true
  | _ :: rest, sawDialog => reloadPrecededByDialog rest sawDialog

/-- The handlers of the apps widget from which the external reload action
`postReloadApps` is reachable: the reload buttons (footer and per-row, via
`handleReloadApp`) and the close action of the install log-viewer surface. -/
inductive ReloadFlow where
  | viaReloadButton (baseDir : Option String) (c : UserChoice) (o : Outcome)
  | viaInstallSurfaceClose (widgetId baseDir : String) (o : Outcome)

/-- The event trace of one reload-reaching flow. -/
def ReloadFlow.trace : ReloadFlow → List Event
  | ReloadFlow.viaReloadButton k c o => handleReloadAppTrace k c o
  | ReloadFlow.viaInstallSurfaceClose wid k o => installOnCloseTrace wid k o

/-- Counterexample to C3: closing the install log-viewer surface invokes the
external reload action with no confirmation dialog anywhere in the flow, so
"the external reload action is never invoked without a preceding user
confirmation" fails on the code. -/
theorem reload_confirmation_counterexample :
    ¬ (∀ f : ReloadFlow,
        reloadPrecededByDialog (ReloadFlow.trace f) false = true) := by
  intro h
  have hc := h (ReloadFlow.viaInstallSurfaceClose "app-install-1000" "/a"
    Outcome.success)
  have hf : reloadPrecededByDialog
      (ReloadFlow.trace (ReloadFlow.viaInstallSurfaceClose "app-install-1000"
        "/a" Outcome.success)) false = false := by decide
  rw [hf] at hc
  exact Bool.noConfusion hc

/-- C3 amended: in the `handleReloadApp` flow the confirmation dialog is
always presented before anything else, declining performs only the dialog
teardown (no external call, no registry, busy-flag or graph mutation), and
confirming is the only branch that reaches the external reload action; the
install-surface close handler, by contrast, invokes the external reload
action without any confirmation dialog. -/
theorem reload_confirmation_amended (rkey : Option String) (c : UserChoice)
    (o : Outcome) (wid akey : String) :
    (handleReloadAppTrace rkey c o).countP isAppendDialog = 1
    ∧ reloadPrecededByDialog (handleReloadAppTrace rkey c o) false = true
    ∧ handleReloadAppTrace rkey UserChoice.cancel o
        = [Event.appendDialog "reload-app", Event.removeDialog "reload-app"]
    ∧ (handleReloadAppTrace rkey UserChoice.cancel o).countP isPostReload = 0
    ∧ (handleReloadAppTrace rkey UserChoice.confirm o).countP isPostReload = 1
    ∧ (installOnCloseTrace wid akey o).countP isPostReload = 1
    ∧ (installOnCloseTrace wid akey o).countP isAppendDialog = 0 := by
  cases c <;> cases o <;> cases rkey <;>
    exact ⟨rfl, rfl, rfl, rfl, rfl, rfl, rfl⟩

/-- The log-viewer widget descriptor appended by `handleAppInstallAll`
(apps-manager.tsx lines 228-272), restricted to the registry-tracked fields:
its id and its `metadata.script` (`{type: INSTALL_ALL, base_dir}`). -/
def installWidget (widgetId baseDir : String) : BackstageWidget :=
  { widget_id := widgetId,
    script := some { scriptType := ELogViewerScriptType.INSTALL_ALL,
                     base_dir := baseDir } }

/-- The widget id `` `app-install-${Date.now()}` `` (apps-manager.tsx line
227), with `Date.now()` embedded as the millisecond timestamp `now`. -/
def genInstallWidgetId (now : Nat) : String :=
  "app-install-" ++ Nat.repr now

/-- Modelled from the spec: `appendWidget` of the widget store (`@/store`) is
not among the sources. Per the spec, launching install registers the task in
the background-task registry: the descriptor is added to the backstage list. -/
def appendBackstageWidget (w : BackstageWidget)
    (backstageWidgets : List BackstageWidget) : List BackstageWidget :=
  backstageWidgets ++ [w]

/-- `handleAppInstallAll` (apps-manager.tsx lines 226-273): generate the
timestamped widget id and register the install log-viewer widget; returns
the new registry and the spawned task id. -/
def handleAppInstallAll (now : Nat) (baseDir : String)
    (backstageWidgets : List BackstageWidget) :
    List BackstageWidget × String :=
  (appendBackstageWidget (installWidget (genInstallWidgetId now) baseDir)
      backstageWidgets,
    genInstallWidgetId now)

/-- `actions.onClose` of the install log viewer, state part
(apps-manager.tsx lines 257-260): unregister the widget id. -/
def installOnCloseState (widgetId : String)
    (backstageWidgets : List BackstageWidget) : List BackstageWidget :=
  removeBackstageWidget widgetId backstageWidgets

theorem widget_id_not_mem_remove (widgetId : String)
    (st : List BackstageWidget) :
    widgetId ∉ (removeBackstageWidget widgetId st).map
      (fun w => w.widget_id) := by
  intro h
  rcases List.mem_map.mp h with ⟨w, hw, hid⟩
  rcases List.mem_filter.mp hw with ⟨_, hne⟩
  exact (decide_eq_true_eq.mp hne) hid

/-- C5: `handleAppInstallAll key` registers exactly one INSTALL task owned by
`key` (the owner list grows by exactly the spawned id, which names the opened
log surface); closing that surface removes the task id from the registry and
runs the reload operation for `key` (exactly one external reload call,
removal first). -/
theorem install_registers_task (now : Nat) (baseDir : String)
    (st : List BackstageWidget) (o : Outcome) :
    (handleAppInstallAll now baseDir st).1
        = st ++ [installWidget (handleAppInstallAll now baseDir st).2 baseDir]
    ∧ (installWidget (handleAppInstallAll now baseDir st).2 baseDir).script
        = some { scriptType := ELogViewerScriptType.INSTALL_ALL,
                 base_dir := baseDir }
    ∧ listByOwner (handleAppInstallAll now baseDir st).1 baseDir
        = listByOwner st baseDir ++ [(handleAppInstallAll now baseDir st).2]
    ∧ (handleAppInstallAll now baseDir st).2
        ∉ (installOnCloseState (handleAppInstallAll now baseDir st).2
            (handleAppInstallAll now baseDir st).1).map (fun w => w.widget_id)
    ∧ installOnCloseTrace (handleAppInstallAll now baseDir st).2 baseDir o
        = Event.removeBackstage (handleAppInstallAll now baseDir st).2
            :: reloadAppsTrace (some baseDir) o
    ∧ (installOnCloseTrace (handleAppInstallAll now baseDir st).2 baseDir
        o).countP isPostReload = 1 := by
  refine ⟨rfl, rfl, ?_, widget_id_not_mem_remove _ _, rfl, ?_⟩
  · show listByOwner
        (st ++ [installWidget (genInstallWidgetId now) baseDir]) baseDir = _
    rw [listByOwner, List.filter_append, List.map_append]
    rw [show ((List.filter (fun w => ownedBy w baseDir)
        [installWidget (genInstallWidgetId now) baseDir]).map
          (fun w => w.widget_id))
        = [genInstallWidgetId now] by
      simp [installWidget, ownedBy, scriptBaseDir]]
    rfl
  · cases o <;> rfl

/-- Witness for C5 on the spec's scenario: installing on `/a` with an empty
registry registers the one INSTALL task owned by `/a`, and closing its
surface leaves its id unregistered. -/
theorem install_registers_task_witness :
    (handleAppInstallAll 1000 "/a" []).1
        = [] ++ [installWidget (handleAppInstallAll 1000 "/a" []).2 "/a"]
    ∧ (handleAppInstallAll 1000 "/a" []).2
        ∉ (installOnCloseState (handleAppInstallAll 1000 "/a" []).2
            (handleAppInstallAll 1000 "/a" []).1).map (fun w => w.widget_id) :=
  have h := install_registers_task 1000 "/a" [] Outcome.success
  ⟨h.1, h.2.2.2.1⟩

/-- Modelled from the spec: the constant `APP_RUN_WIDGET_ID`
(`@/constants/widgets`) is not among the sources; it is the fixed group and
id prefix of the foreground run surface. -/
def APP_RUN_WIDGET_ID : String := "app-run"

/-- The frontstage run widget appended by `handleRunApp`
(apps-manager.tsx lines 275-292), restricted to the fields it carries:
`` `${APP_RUN_WIDGET_ID}-${baseDir}` `` and `metadata.{base_dir, scripts}`. -/
structure AppRunWidget where
  widget_id : String
  base_dir : String
  scripts : List String
  deriving DecidableEq

/-- `handleRunApp` (apps-manager.tsx lines 275-292): open the foreground run
surface carrying the key and the scripts. -/
def handleRunApp (baseDir : String) (scripts : List String) : AppRunWidget :=
  { widget_id := APP_RUN_WIDGET_ID ++ "-" ++ baseDir,
    base_dir := baseDir,
    scripts := scripts }

/-- The JS test `scripts?.length === 0`: an absent (still loading or failed)
script list compares `false`, an empty loaded list compares `true`. -/
def scriptsLengthIsZero : Option (List String) → Bool
  | some s => decide (s.length = 0)
  | none => false

/-- The `disabled` prop of the run button (apps-manager.tsx line 532):
`isLoading || isScriptsLoading || scripts?.length === 0`. -/
def runButtonDisabled (isLoading isScriptsLoading : Bool)
    (scripts : Option (List String)) : Bool :=
  isLoading || isScriptsLoading || scriptsLengthIsZero scripts

/-- One click of the run button (apps-manager.tsx lines 527-543): a disabled
button performs nothing (no surface, and the run path issues no external
call); an enabled one calls `handleRunApp(baseDir, scripts)`. -/
def clickRunApp (isLoading isScriptsLoading : Bool)
    (scripts : Option (List String)) (baseDir : String) :
    Option AppRunWidget :=
  if runButtonDisabled isLoading isScriptsLoading scripts then none
  else some (handleRunApp baseDir (scripts.getD []))

/-- C7: running with an empty script list or while scripts are still loading
is rejected at the call site (no surface opens, no call is issued); with a
loaded non-empty list and no busy flag, the click opens the foreground run
surface carrying the key and exactly those scripts. -/
theorem run_script_gating (isLoading isScriptsLoading : Bool)
    (scripts : Option (List String)) (baseDir : String) (s : String)
    (rest : List String) :
    clickRunApp isLoading isScriptsLoading (some []) baseDir = none
    ∧ clickRunApp isLoading true scripts baseDir = none
    ∧ clickRunApp false false (some (s :: rest)) baseDir
        = some { widget_id := APP_RUN_WIDGET_ID ++ "-" ++ baseDir,
                 base_dir := baseDir,
                 scripts := s :: rest } := by
  refine ⟨?_, ?_, rfl⟩
  · cases isLoading <;> cases isScriptsLoading <;> rfl
  · cases isLoading <;> rfl

/-- Counterexample to C8: two install launches in the same millisecond (here
for `/a` then `/b`, both at `Date.now() = 1000`) generate the same task id,
so the registry ends up holding two tasks with the same id. -/
theorem install_id_collision :
    (handleAppInstallAll 1000 "/b"
        (handleAppInstallAll 1000 "/a" []).1).1.map (fun w => w.widget_id)
      = ["app-install-1000", "app-install-1000"]
    ∧ ¬ ((handleAppInstallAll 1000 "/b"
        (handleAppInstallAll 1000 "/a" []).1).1.map
          (fun w => w.widget_id)).Nodup := by
  refine ⟨by decide, ?_⟩
  intro h
  rw [show (handleAppInstallAll 1000 "/b"
      (handleAppInstallAll 1000 "/a" []).1).1.map (fun w => w.widget_id)
    = ["app-install-1000", "app-install-1000"] by decide] at h
  simp at h

theorem toDigitsCore_append (f n : Nat) (l : List Char) :
    Nat.toDigitsCore 10 f n l = Nat.toDigitsCore 10 f n [] ++ l := by
  induction f generalizing n l with
  | zero => simp [Nat.toDigitsCore]
  | succ f ih =>
    simp only [Nat.toDigitsCore]
    by_cases h : n / 10 = 0
    · simp [h]
    · rw [if_neg h, if_neg h, ih (n / 10) (Nat.digitChar (n % 10) :: l),
        ih (n / 10) [Nat.digitChar (n % 10)], List.append_assoc,
        List.singleton_append]

theorem toDigitsCore_ne_nil (f n : Nat) (h : 0 < f) :
    Nat.toDigitsCore 10 f n [] ≠ [] := by
  cases f with
  | zero => exact absurd h (lt_irrefl 0)
  | succ f =>
    simp only [Nat.toDigitsCore]
    by_cases h10 : n / 10 = 0
    · simp [h10]
    · rw [if_neg h10, toDigitsCore_append]
      simp

theorem digitChar_inj_lt_ten :
    ∀ a, a < 10 → ∀ b, b < 10 → Nat.digitChar a = Nat.digitChar b →
      a = b := by
  decide

theorem toDigitsCore_injective (f1 : Nat) :
    ∀ n1, n1 < f1 → ∀ f2 n2, n2 < f2 →
      Nat.toDigitsCore 10 f1 n1 [] = Nat.toDigitsCore 10 f2 n2 [] →
      n1 = n2 := by
  induction f1 with
  | zero =>
    intro n1 h1
    exact absurd h1 (Nat.not_lt_zero n1)
  | succ g ih =>
    intro n1 h1 f2 n2 h2 heq
    cases f2 with
    | zero => exact absurd h2 (Nat.not_lt_zero n2)
    | succ g2 =>
      have e1 := Nat.div_add_mod n1 10
      have e2 := Nat.div_add_mod n2 10
      have hm1 : n1 % 10 < 10 := Nat.mod_lt _ (by omega)
      have hm2 : n2 % 10 < 10 := Nat.mod_lt _ (by omega)
      simp only [Nat.toDigitsCore] at heq
      by_cases ha : n1 / 10 = 0 <;> by_cases hb : n2 / 10 = 0
      · rw [if_pos ha, if_pos hb] at heq
        have hd : Nat.digitChar (n1 % 10) = Nat.digitChar (n2 % 10) :=
          (List.cons.injEq _ _ _ _ ▸ heq).1
        have hmod := digitChar_inj_lt_ten _ hm1 _ hm2 hd
        omega
      · rw [if_pos ha, if_neg hb, toDigitsCore_append] at heq
        have hn2 : 10 ≤ n2 := by
          by_contra hc
          exact hb (Nat.div_eq_of_lt (by omega))
        have hlen := congrArg List.length heq
        simp only [List.length_cons, List.length_append,
          List.length_nil] at hlen
        have : Nat.toDigitsCore 10 g2 (n2 / 10) [] = [] :=
          List.length_eq_zero.mp (by omega)
        exact absurd this (toDigitsCore_ne_nil g2 (n2 / 10) (by omega))
      · rw [if_neg ha, if_pos hb, toDigitsCore_append] at heq
        have hn1 : 10 ≤ n1 := by
          by_contra hc
          exact ha (Nat.div_eq_of_lt (by omega))
        have hlen := congrArg List.length heq
        simp only [List.length_cons, List.length_append,
          List.length_nil] at hlen
        have : Nat.toDigitsCore 10 g (n1 / 10) [] = [] :=
          List.length_eq_zero.mp (by omega)
        exact absurd this (toDigitsCore_ne_nil g (n1 / 10) (by omega))
      · rw [if_neg ha, if_neg hb,
          toDigitsCore_append g (n1 / 10) [Nat.digitChar (n1 % 10)],
          toDigitsCore_append g2 (n2 / 10) [Nat.digitChar (n2 % 10)]]
          at heq
        have hn1 : 10 ≤ n1 := by
          by_contra hc
          exact ha (Nat.div_eq_of_lt (by omega))
        have hn2 : 10 ≤ n2 := by
          by_contra hc
          exact hb (Nat.div_eq_of_lt (by omega))
        have hparts := List.append_inj' heq rfl
        have hd : Nat.digitChar (n1 % 10) = Nat.digitChar (n2 % 10) :=
          (List.cons.injEq _ _ _ _ ▸ hparts.2).1
        have hmod := digitChar_inj_lt_ten _ hm1 _ hm2 hd
        have hlt1 : n1 / 10 < n1 := Nat.div_lt_self (by omega) (by omega)
        have hlt2 : n2 / 10 < n2 := Nat.div_lt_self (by omega) (by omega)
        have hdiv := ih (n1 / 10) (by omega) g2 (n2 / 10) (by omega)
          hparts.1
        omega

theorem nat_repr_injective {m n : Nat} (h : Nat.repr m = Nat.repr n) :
    m = n := by
  have hdata : Nat.toDigits 10 m = Nat.toDigits 10 n :=
    congrArg String.data h
  exact toDigitsCore_injective (m + 1) m (Nat.lt_succ_self m) (n + 1) n
    (Nat.lt_succ_self n) hdata

/-- C8 amended: install launches at distinct millisecond timestamps generate
distinct task ids (two launches within the same millisecond collide, see the
counterexample). -/
theorem install_ids_distinct_of_distinct_times (t1 t2 : Nat)
    (h : t1 ≠ t2) : genInstallWidgetId t1 ≠ genInstallWidgetId t2 := by
  intro he
  apply h
  apply nat_repr_injective
  have hdata := congrArg String.data he
  simp only [genInstallWidgetId, String.data_append] at hdata
  exact congrArg List.asString (List.append_cancel_left hdata)

/-- Witness for the amended C8: two launches one millisecond apart get
different ids. -/
theorem install_ids_distinct_witness :
    genInstallWidgetId 1000 ≠ genInstallWidgetId 1001 :=
  install_ids_distinct_of_distinct_times 1000 1001 (by decide)

end AppsManager
